import Mathlib

/-!
Shallow embedding of datafusion's physical-expr `in_list.rs` (the InList /
InSet expression evaluator) and proofs about the frozen claims on it.

Modelling conventions:
* Arrow arrays are `List (Option v)` (per-row value with null bitmap);
  a whole `DataType.Null` array is represented only by its length.
* Machine integers are modelled as unbounded `Int` / `Nat`: the evaluator
  only ever compares values for equality, never performs arithmetic, so
  the in-range fragment is preserved exactly.
* IEEE-754 floats are modelled by their bit patterns (`Nat`), with native
  float equality (`f32Eq` / `f64Eq`) defined on the bits exactly as IEEE
  defines `==`: NaN equals nothing, positive and negative zero are equal,
  otherwise equality of bit patterns.  Only equality is ever used.
* Rust `Result::Err(DataFusionError::NotImplemented ..)` becomes
  `EvalResult.notImplemented`; an aborting path (the `unimplemented!`
  macro and `unwrap` failures) becomes `EvalResult.panicked` / an
  `Except.error` in helpers.  The two are kept distinct because the
  source distinguishes recoverable errors from aborts.
-/

namespace InListSpec

/-- Result of evaluating a physical expression: a successful value, a
recoverable `DataFusionError::NotImplemented` error, or a process abort
(Rust `unimplemented!` / failed `unwrap`). -/
inductive EvalResult (α : Type) where
  | ok (val : α)
  | notImplemented (msg : String)
  | panicked (msg : String)
  deriving Repr, DecidableEq

/-- Arrow logical data types, restricted to the types the InList evaluator
dispatches on, plus `Date32` as a representative of every type hitting the
catch-all "not implemented" arms of the source's matches. -/
inductive DataType where
  | Boolean | Int8 | Int16 | Int32 | Int64
  | UInt8 | UInt16 | UInt32 | UInt64
  | Float32 | Float64 | Utf8 | LargeUtf8 | Null
  | Date32
  deriving Repr, DecidableEq

/-- Debug-format name of a data type, as Rust's `{:?}` prints it; used to
build the error messages of the catch-all arms. -/
def DataType.displayName : DataType → String
  | .Boolean => "Boolean"
  | .Int8 => "Int8"
  | .Int16 => "Int16"
  | .Int32 => "Int32"
  | .Int64 => "Int64"
  | .UInt8 => "UInt8"
  | .UInt16 => "UInt16"
  | .UInt32 => "UInt32"
  | .UInt64 => "UInt64"
  | .Float32 => "Float32"
  | .Float64 => "Float64"
  | .Utf8 => "Utf8"
  | .LargeUtf8 => "LargeUtf8"
  | .Null => "Null"
  | .Date32 => "Date32"

/-- Scalar values (`datafusion_common::ScalarValue`), restricted to the
variants reachable in this file.  Floats carry their bit patterns. -/
inductive ScalarValue where
  | Boolean (v : Option Bool)
  | Int8 (v : Option Int)
  | Int16 (v : Option Int)
  | Int32 (v : Option Int)
  | Int64 (v : Option Int)
  | UInt8 (v : Option Nat)
  | UInt16 (v : Option Nat)
  | UInt32 (v : Option Nat)
  | UInt64 (v : Option Nat)
  | Float32 (v : Option Nat)
  | Float64 (v : Option Nat)
  | Utf8 (v : Option String)
  | LargeUtf8 (v : Option String)
  | Null
  | Date32 (v : Option Int)
  deriving Repr, DecidableEq

/-- ScalarValue::is_null. -/
def ScalarValue.is_null : ScalarValue → Bool
  | .Boolean none | .Int8 none | .Int16 none | .Int32 none | .Int64 none
  | .UInt8 none | .UInt16 none | .UInt32 none | .UInt64 none
  | .Float32 none | .Float64 none | .Utf8 none | .LargeUtf8 none
  | .Null | .Date32 none => true
  | _ => false

/-- Logical data type of a scalar value. -/
def ScalarValue.scalarDataType : ScalarValue → DataType
  | .Boolean _ => .Boolean
  | .Int8 _ => .Int8
  | .Int16 _ => .Int16
  | .Int32 _ => .Int32
  | .Int64 _ => .Int64
  | .UInt8 _ => .UInt8
  | .UInt16 _ => .UInt16
  | .UInt32 _ => .UInt32
  | .UInt64 _ => .UInt64
  | .Float32 _ => .Float32
  | .Float64 _ => .Float64
  | .Utf8 _ => .Utf8
  | .LargeUtf8 _ => .LargeUtf8
  | .Null => .Null
  | .Date32 _ => .Date32

/-- Short display of a scalar value's shape, used in the "Unexpected type"
abort message of the list-value collection arms (the Rust code formats the
scalar with `Display`; the exact formatting is immaterial to the claims,
only that the message names the offending value). -/
def ScalarValue.displayShape (s : ScalarValue) : String :=
  s.scalarDataType.displayName ++ (if s.is_null then "(NULL)" else "")

/-- IEEE-754 binary32: the bit pattern encodes NaN. -/
def f32IsNaN (b : Nat) : Bool :=
  decide ((b % 2 ^ 32) / 2 ^ 23 % 2 ^ 8 = 255) && decide (b % 2 ^ 23 ≠ 0)

/-- IEEE-754 binary32: the bit pattern encodes a (positive or negative) zero. -/
def f32IsZero (b : Nat) : Bool := decide (b % 2 ^ 31 = 0)

/-- Native `f32` equality on bit patterns: NaN is unequal to everything,
the two zeros are equal, otherwise bit equality. -/
def f32Eq (a b : Nat) : Bool :=
  !f32IsNaN a && !f32IsNaN b &&
    (decide (a % 2 ^ 32 = b % 2 ^ 32) || (f32IsZero a && f32IsZero b))

/-- IEEE-754 binary64: the bit pattern encodes NaN. -/
def f64IsNaN (b : Nat) : Bool :=
  decide ((b % 2 ^ 64) / 2 ^ 52 % 2 ^ 11 = 2047) && decide (b % 2 ^ 52 ≠ 0)

/-- IEEE-754 binary64: the bit pattern encodes a (positive or negative) zero. -/
def f64IsZero (b : Nat) : Bool := decide (b % 2 ^ 63 = 0)

/-- Native `f64` equality on bit patterns. -/
def f64Eq (a b : Nat) : Bool :=
  !f64IsNaN a && !f64IsNaN b &&
    (decide (a % 2 ^ 64 = b % 2 ^ 64) || (f64IsZero a && f64IsZero b))

/-- Modelled from the spec: equality of `ScalarValue`s as used by the
materialized set's `contains` (the `PartialEq` impl lives in
`datafusion_common`, which is not part of this source slice).  Per the
spec, values of different logical types are never equal, and float
membership uses the native float equality. -/
def scalarEq : ScalarValue → ScalarValue → Bool
  | .Boolean a, .Boolean b => a == b
  | .Int8 a, .Int8 b => a == b
  | .Int16 a, .Int16 b => a == b
  | .Int32 a, .Int32 b => a == b
  | .Int64 a, .Int64 b => a == b
  | .UInt8 a, .UInt8 b => a == b
  | .UInt16 a, .UInt16 b => a == b
  | .UInt32 a, .UInt32 b => a == b
  | .UInt64 a, .UInt64 b => a == b
  | .Float32 (some a), .Float32 (some b) => f32Eq a b
  | .Float32 none, .Float32 none => true
  | .Float32 _, .Float32 _ => false
  | .Float64 (some a), .Float64 (some b) => f64Eq a b
  | .Float64 none, .Float64 none => true
  | .Float64 _, .Float64 _ => false
  | .Utf8 a, .Utf8 b => a == b
  | .LargeUtf8 a, .LargeUtf8 b => a == b
  | .Null, .Null => true
  | .Date32 a, .Date32 b => a == b
  | _, _ => false

/-- Typed Arrow arrays as lists of optional values (value + null bitmap);
a `DataType.Null` array is all-null and carries only its length. -/
inductive ArrayValue where
  | BooleanArr (xs : List (Option Bool))
  | Int8Arr (xs : List (Option Int))
  | Int16Arr (xs : List (Option Int))
  | Int32Arr (xs : List (Option Int))
  | Int64Arr (xs : List (Option Int))
  | UInt8Arr (xs : List (Option Nat))
  | UInt16Arr (xs : List (Option Nat))
  | UInt32Arr (xs : List (Option Nat))
  | UInt64Arr (xs : List (Option Nat))
  | Float32Arr (xs : List (Option Nat))
  | Float64Arr (xs : List (Option Nat))
  | Utf8Arr (xs : List (Option String))
  | LargeUtf8Arr (xs : List (Option String))
  | NullArr (len : Nat)
  | Date32Arr (xs : List (Option Int))
  deriving Repr, DecidableEq

/-- Array::data_type. -/
def ArrayValue.arrayDataType : ArrayValue → DataType
  | .BooleanArr _ => .Boolean
  | .Int8Arr _ => .Int8
  | .Int16Arr _ => .Int16
  | .Int32Arr _ => .Int32
  | .Int64Arr _ => .Int64
  | .UInt8Arr _ => .UInt8
  | .UInt16Arr _ => .UInt16
  | .UInt32Arr _ => .UInt32
  | .UInt64Arr _ => .UInt64
  | .Float32Arr _ => .Float32
  | .Float64Arr _ => .Float64
  | .Utf8Arr _ => .Utf8
  | .LargeUtf8Arr _ => .LargeUtf8
  | .NullArr _ => .Null
  | .Date32Arr _ => .Date32

/-- Array::len. -/
def ArrayValue.len : ArrayValue → Nat
  | .BooleanArr xs => xs.length
  | .Int8Arr xs => xs.length
  | .Int16Arr xs => xs.length
  | .Int32Arr xs => xs.length
  | .Int64Arr xs => xs.length
  | .UInt8Arr xs => xs.length
  | .UInt16Arr xs => xs.length
  | .UInt32Arr xs => xs.length
  | .UInt64Arr xs => xs.length
  | .Float32Arr xs => xs.length
  | .Float64Arr xs => xs.length
  | .Utf8Arr xs => xs.length
  | .LargeUtf8Arr xs => xs.length
  | .NullArr len => len
  | .Date32Arr xs => xs.length

/-- Whether row `i` of an array is null (or out of range: `false`).  Rows of
a `DataType.Null` array are all null. -/
def ArrayValue.rowIsNull (a : ArrayValue) (i : Nat) : Bool :=
  match a with
  | .BooleanArr xs => xs.get? i == some none
  | .Int8Arr xs => xs.get? i == some none
  | .Int16Arr xs => xs.get? i == some none
  | .Int32Arr xs => xs.get? i == some none
  | .Int64Arr xs => xs.get? i == some none
  | .UInt8Arr xs => xs.get? i == some none
  | .UInt16Arr xs => xs.get? i == some none
  | .UInt32Arr xs => xs.get? i == some none
  | .UInt64Arr xs => xs.get? i == some none
  | .Float32Arr xs => xs.get? i == some none
  | .Float64Arr xs => xs.get? i == some none
  | .Utf8Arr xs => xs.get? i == some none
  | .LargeUtf8Arr xs => xs.get? i == some none
  | .NullArr len => decide (i < len)
  | .Date32Arr xs => xs.get? i == some none

/-- ScalarValue::to_array (with number_rows = 1): a one-row array holding
the scalar. -/
def ScalarValue.to_array : ScalarValue → ArrayValue
  | .Boolean v => .BooleanArr [v]
  | .Int8 v => .Int8Arr [v]
  | .Int16 v => .Int16Arr [v]
  | .Int32 v => .Int32Arr [v]
  | .Int64 v => .Int64Arr [v]
  | .UInt8 v => .UInt8Arr [v]
  | .UInt16 v => .UInt16Arr [v]
  | .UInt32 v => .UInt32Arr [v]
  | .UInt64 v => .UInt64Arr [v]
  | .Float32 v => .Float32Arr [v]
  | .Float64 v => .Float64Arr [v]
  | .Utf8 v => .Utf8Arr [v]
  | .LargeUtf8 v => .LargeUtf8Arr [v]
  | .Null => .NullArr 1
  | .Date32 v => .Date32Arr [v]

/-- ColumnarValue: either a row-aligned array or a single scalar. -/
inductive ColumnarValue where
  | Array (a : ArrayValue)
  | Scalar (s : ScalarValue)
  deriving Repr, DecidableEq

/-- ColumnarValue::data_type. -/
def ColumnarValue.data_type : ColumnarValue → DataType
  | .Array a => a.arrayDataType
  | .Scalar s => s.scalarDataType

/-- The `match value { Array => array, Scalar => scalar.to_array() }` step
of `InListExpr::evaluate`. -/
def toArrayOf : ColumnarValue → ArrayValue
  | .Array a => a
  | .Scalar s => s.to_array

/-- Physical expressions, restricted to the shapes the InList code
distinguishes: a `Literal`, a `CastExpr` (whose evaluation semantics live
outside this source slice, so its per-batch result is carried as a field),
and any other expression (`Opaque`), carried as its per-batch evaluation
result plus its declared nullability.  The classifier only inspects the
shape; evaluation only reads the carried results. -/
inductive PhysExpr where
  | Literal (v : ScalarValue)
  | Cast (inner : PhysExpr) (target : DataType) (result : ColumnarValue)
  | Opaque (id : Nat) (result : ColumnarValue) (nullb : Bool)
  deriving Repr, DecidableEq

/-- PhysicalExpr::evaluate against the (single, implicit) batch.  A
`Literal` evaluates to its scalar; `Cast` and `Opaque` evaluate to their
carried results (modelled from the spec: the expression-tree collaborators
are outside this source slice and always succeed here). -/
def PhysExpr.evaluate : PhysExpr → ColumnarValue
  | .Literal v => .Scalar v
  | .Cast _ _ result => result
  | .Opaque _ result _ => result

/-- Modelled from the spec: PhysicalExpr::nullable for the collaborator
nodes (a literal is nullable iff its value is null; cast delegates to its
operand; opaque expressions report their declared nullability). -/
def PhysExpr.nullable : PhysExpr → Bool
  | .Literal v => v.is_null
  | .Cast inner _ _ => inner.nullable
  | .Opaque _ _ nullb => nullb

/-- Size at which to use a Set rather than Vec for IN / NOT IN
(`OPTIMIZER_INSET_THRESHOLD`). -/
def OPTIMIZER_INSET_THRESHOLD : Nat := 30

/-- check_all_static_filter_expr: every list member is a `Literal`, or a
`CastExpr` whose operand is a `Literal`. -/
def check_all_static_filter_expr (list : List PhysExpr) : Bool :=
  list.all fun v =>
    match v with
    | .Cast inner _ _ =>
      match inner with
      | .Literal _ => true
      | _ => false
    | .Literal _ => true
    | _ => false

/-- The literal value a static filter expression carries (unwrapping one
cast).  `none` corresponds to the `unwrap` abort of
`cast_static_filter_to_set`, which is unreachable because `InListExpr::new`
only builds the set after `check_all_static_filter_expr` passed. -/
def staticExprValue : PhysExpr → Option ScalarValue
  | .Cast (.Literal v) _ _ => some v
  | .Literal v => some v
  | _ => none

/-- cast_static_filter_to_set: the values of a static candidate list.  The
Rust `HashSet<ScalarValue>` is modelled by the list of inserted values;
its only observable operation here is `contains` (`setContains`), for
which duplicates are irrelevant. -/
def cast_static_filter_to_set (list : List PhysExpr) : List ScalarValue :=
  list.filterMap staticExprValue

/-- HashSet::contains on the modelled set, with the spec-modelled
`ScalarValue` equality. -/
def setContains (set : List ScalarValue) (v : ScalarValue) : Bool :=
  set.any (scalarEq v)

/-- InList physical expression node. -/
structure InListExpr where
  expr : PhysExpr
  list : List PhysExpr
  negated : Bool
  set : Option (List ScalarValue)
  deriving Repr, DecidableEq

/-- InListExpr::new: materialize the set iff the list is longer than the
threshold and entirely static. -/
def InListExpr.new (expr : PhysExpr) (list : List PhysExpr) (negated : Bool) :
    InListExpr :=
  if OPTIMIZER_INSET_THRESHOLD < list.length && check_all_static_filter_expr list then
    { expr := expr, list := list, negated := negated,
      set := some (cast_static_filter_to_set list) }
  else
    { expr := expr, list := list, negated := negated, set := none }

/-- InListExpr::nullable: delegates to the probe expression, ignoring the
candidate list. -/
def InListExpr.nullable (self : InListExpr) : Bool :=
  self.expr.nullable

/-- Whether any evaluated candidate is a null scalar (the `contains_null`
computation shared by all three list-backed evaluator families). -/
def listContainsNull (list_values : List ColumnarValue) : Bool :=
  list_values.any fun v =>
    match v with
    | .Scalar s => s.is_null
    | .Array _ => false

/-- The value-collection `flat_map` shared by the list-backed evaluators:
each candidate contributes a value (`Except.ok`), is skipped (`Except.ok
none` from the extractor), or aborts the process (`Except.error`, from the
`unimplemented!` arms for nested columns and unexpected scalar types).
Processing is in candidate order; the first abort wins. -/
def collectValues {α : Type} (extract : ScalarValue → Except String (Option α)) :
    List ColumnarValue → Except String (List α)
  | [] => .ok []
  | .Scalar s :: rest =>
    match extract s with
    | .error m => .error m
    | .ok none => collectValues extract rest
    | .ok (some v) =>
      match collectValues extract rest with
      | .error m => .error m
      | .ok vs => .ok (v :: vs)
  | .Array _ :: _ => .error "InList does not yet support nested columns."

/-- The abort message of the `unimplemented!` arm hit by a scalar the
current dispatch arm cannot use. -/
def unexpectedTypeMsg (s : ScalarValue) : String :=
  "Unexpected type " ++ s.displayShape ++ " for InList"

/-- Scalar extraction of the Boolean dispatch arm of the `make_contains`
macro: the probe-typed variant contributes `some`/skip, a `Utf8` null is
skipped, anything else aborts. -/
def extractBoolean : ScalarValue → Except String (Option Bool)
  | .Boolean (some v) => .ok (some v)
  | .Boolean none => .ok none
  | .Utf8 none => .ok none
  | s => .error (unexpectedTypeMsg s)

/-- Scalar extraction of the Int8 arm of `make_contains_primitive`. -/
def extractInt8 : ScalarValue → Except String (Option Int)
  | .Int8 (some v) => .ok (some v)
  | .Int8 none => .ok none
  | .Utf8 none => .ok none
  | s => .error (unexpectedTypeMsg s)

/-- Scalar extraction of the Int16 arm of `make_contains_primitive`. -/
def extractInt16 : ScalarValue → Except String (Option Int)
  | .Int16 (some v) => .ok (some v)
  | .Int16 none => .ok none
  | .Utf8 none => .ok none
  | s => .error (unexpectedTypeMsg s)

/-- Scalar extraction of the Int32 arm of `make_contains_primitive`. -/
def extractInt32 : ScalarValue → Except String (Option Int)
  | .Int32 (some v) => .ok (some v)
  | .Int32 none => .ok none
  | .Utf8 none => .ok none
  | s => .error (unexpectedTypeMsg s)

/-- Scalar extraction of the Int64 arm of `make_contains_primitive`. -/
def extractInt64 : ScalarValue → Except String (Option Int)
  | .Int64 (some v) => .ok (some v)
  | .Int64 none => .ok none
  | .Utf8 none => .ok none
  | s => .error (unexpectedTypeMsg s)

/-- Scalar extraction of the UInt8 arm of `make_contains_primitive`. -/
def extractUInt8 : ScalarValue → Except String (Option Nat)
  | .UInt8 (some v) => .ok (some v)
  | .UInt8 none => .ok none
  | .Utf8 none => .ok none
  | s => .error (unexpectedTypeMsg s)

/-- Scalar extraction of the UInt16 arm of `make_contains_primitive`. -/
def extractUInt16 : ScalarValue → Except String (Option Nat)
  | .UInt16 (some v) => .ok (some v)
  | .UInt16 none => .ok none
  | .Utf8 none => .ok none
  | s => .error (unexpectedTypeMsg s)

/-- Scalar extraction of the UInt32 arm of `make_contains_primitive`. -/
def extractUInt32 : ScalarValue → Except String (Option Nat)
  | .UInt32 (some v) => .ok (some v)
  | .UInt32 none => .ok none
  | .Utf8 none => .ok none
  | s => .error (unexpectedTypeMsg s)

/-- Scalar extraction of the UInt64 arm of `make_contains_primitive`. -/
def extractUInt64 : ScalarValue → Except String (Option Nat)
  | .UInt64 (some v) => .ok (some v)
  | .UInt64 none => .ok none
  | .Utf8 none => .ok none
  | s => .error (unexpectedTypeMsg s)

/-- Scalar extraction of the Float32 arm of `make_contains_primitive`. -/
def extractFloat32 : ScalarValue → Except String (Option Nat)
  | .Float32 (some v) => .ok (some v)
  | .Float32 none => .ok none
  | .Utf8 none => .ok none
  | s => .error (unexpectedTypeMsg s)

/-- Scalar extraction of the Float64 arm of `make_contains_primitive`. -/
def extractFloat64 : ScalarValue → Except String (Option Nat)
  | .Float64 (some v) => .ok (some v)
  | .Float64 none => .ok none
  | .Utf8 none => .ok none
  | s => .error (unexpectedTypeMsg s)

/-- Scalar extraction of `InListExpr::compare_utf8` (shared by the Utf8
and LargeUtf8 dispatch arms): both string variants contribute. -/
def extractUtf8 : ScalarValue → Except String (Option String)
  | .Utf8 (some v) => .ok (some v)
  | .Utf8 none => .ok none
  | .LargeUtf8 (some v) => .ok (some v)
  | .LargeUtf8 none => .ok none
  | s => .error (unexpectedTypeMsg s)

/-- The `compare_op_scalar!` macro: apply `op` to every row, keeping the
probe's null buffer.  (The Rust code reads `value_unchecked` also on null
rows, but the null bit masks that slot, so the observable array is the
null-preserving map.) -/
def compare_op_scalar {α : Type} (op : α → Bool) (array : List (Option α)) :
    List (Option Bool) :=
  array.map fun x => x.map op

/-- in_list_primitive: whether each (possibly null) row is contained in
the non-null value list, under the arm's native equality `beq`. -/
def in_list_primitive {α : Type} (beq : α → α → Bool) (array : List (Option α))
    (values : List α) : List (Option Bool) :=
  compare_op_scalar (fun x => values.any (beq x)) array

/-- not_in_list_primitive: negation of `in_list_primitive`, rowwise. -/
def not_in_list_primitive {α : Type} (beq : α → α → Bool) (array : List (Option α))
    (values : List α) : List (Option Bool) :=
  compare_op_scalar (fun x => !values.any (beq x)) array

/-- The `make_contains` macro body (the Boolean dispatch arm), generic in
the arm's element type, native equality and scalar extractor. -/
def make_contains {α : Type} (beq : α → α → Bool)
    (extract : ScalarValue → Except String (Option α))
    (array : List (Option α)) (list_values : List ColumnarValue)
    (negated : Bool) : EvalResult (List (Option Bool)) :=
  let contains_null := listContainsNull list_values
  match collectValues extract list_values with
  | .error m => .panicked m
  | .ok values =>
    .ok (array.map fun x =>
      match x.map fun xv => values.any (beq xv) with
      | some true => if negated then some false else some true
      | some false =>
        if contains_null then none
        else if negated then some true else some false
      | none => none)

/-- The `make_contains_primitive` macro body, generic in the arm's element
type, native equality and scalar extractor. -/
def make_contains_primitive {α : Type} (beq : α → α → Bool)
    (extract : ScalarValue → Except String (Option α))
    (array : List (Option α)) (list_values : List ColumnarValue)
    (negated : Bool) : EvalResult (List (Option Bool)) :=
  let contains_null := listContainsNull list_values
  match collectValues extract list_values with
  | .error m => .panicked m
  | .ok values =>
    if negated then
      if contains_null then
        .ok (array.map fun x =>
          match x.map fun v => !values.any (beq v) with
          | some true => none
          | y => y)
      else
        .ok (not_in_list_primitive beq array values)
    else
      if contains_null then
        .ok (array.map fun x =>
          match x.map fun v => values.any (beq v) with
          | some false => none
          | y => y)
      else
        .ok (in_list_primitive beq array values)

/-- InListExpr::compare_utf8: the string-typed list-backed evaluator
(used for both string offset widths, which share row representation
here). -/
def InListExpr.compare_utf8 (array : List (Option String))
    (list_values : List ColumnarValue) (negated : Bool) :
    EvalResult (List (Option Bool)) :=
  let contains_null := listContainsNull list_values
  match collectValues extractUtf8 list_values with
  | .error m => .panicked m
  | .ok values =>
    if negated then
      if contains_null then
        .ok (array.map fun x =>
          match x.map fun v => !values.any (fun w => w == v) with
          | some true => none
          | y => y)
      else
        .ok (not_in_list_primitive (fun v w => w == v) array values)
    else
      if contains_null then
        .ok (array.map fun x =>
          match x.map fun v => values.any (fun w => w == v) with
          | some false => none
          | y => y)
      else
        .ok (in_list_primitive (fun v w => w == v) array values)

/-- The `set_contains_with_negated!` macro body: a null row stays null,
a non-null row is converted to a scalar of the probe's type (the
`try_into().unwrap()`) and looked up in the materialized set; no
null-in-list tracking happens here. -/
def set_contains_with_negated {α : Type} (toScalar : α → ScalarValue)
    (set : List ScalarValue) (array : List (Option α)) (negated : Bool) :
    List (Option Bool) :=
  if negated then
    array.map fun x => x.map fun v => !setContains set (toScalar v)
  else
    array.map fun x => x.map fun v => setContains set (toScalar v)

/-- Chaining of a downcast (`as_any().downcast_ref().unwrap()`, whose
failure aborts) into the rest of an evaluation arm. -/
def withArr {α β : Type} (x : Except String α) (f : α → EvalResult β) :
    EvalResult β :=
  match x with
  | .error m => .panicked m
  | .ok a => f a

/-- Downcast to BooleanArray. -/
def ArrayValue.asBooleanArr : ArrayValue → Except String (List (Option Bool))
  | .BooleanArr xs => .ok xs
  | _ => .error "downcast_ref failed"

/-- Downcast to Int8Array. -/
def ArrayValue.asInt8Arr : ArrayValue → Except String (List (Option Int))
  | .Int8Arr xs => .ok xs
  | _ => .error "downcast_ref failed"

/-- Downcast to Int16Array. -/
def ArrayValue.asInt16Arr : ArrayValue → Except String (List (Option Int))
  | .Int16Arr xs => .ok xs
  | _ => .error "downcast_ref failed"

/-- Downcast to Int32Array. -/
def ArrayValue.asInt32Arr : ArrayValue → Except String (List (Option Int))
  | .Int32Arr xs => .ok xs
  | _ => .error "downcast_ref failed"

/-- Downcast to Int64Array. -/
def ArrayValue.asInt64Arr : ArrayValue → Except String (List (Option Int))
  | .Int64Arr xs => .ok xs
  | _ => .error "downcast_ref failed"

/-- Downcast to UInt8Array. -/
def ArrayValue.asUInt8Arr : ArrayValue → Except String (List (Option Nat))
  | .UInt8Arr xs => .ok xs
  | _ => .error "downcast_ref failed"

/-- Downcast to UInt16Array. -/
def ArrayValue.asUInt16Arr : ArrayValue → Except String (List (Option Nat))
  | .UInt16Arr xs => .ok xs
  | _ => .error "downcast_ref failed"

/-- Downcast to UInt32Array. -/
def ArrayValue.asUInt32Arr : ArrayValue → Except String (List (Option Nat))
  | .UInt32Arr xs => .ok xs
  | _ => .error "downcast_ref failed"

/-- Downcast to UInt64Array. -/
def ArrayValue.asUInt64Arr : ArrayValue → Except String (List (Option Nat))
  | .UInt64Arr xs => .ok xs
  | _ => .error "downcast_ref failed"

/-- Downcast to Float32Array (rows are bit patterns). -/
def ArrayValue.asFloat32Arr : ArrayValue → Except String (List (Option Nat))
  | .Float32Arr xs => .ok xs
  | _ => .error "downcast_ref failed"

/-- Downcast to Float64Array (rows are bit patterns). -/
def ArrayValue.asFloat64Arr : ArrayValue → Except String (List (Option Nat))
  | .Float64Arr xs => .ok xs
  | _ => .error "downcast_ref failed"

/-- Downcast to GenericStringArray with 32-bit offsets. -/
def ArrayValue.asUtf8Arr : ArrayValue → Except String (List (Option String))
  | .Utf8Arr xs => .ok xs
  | _ => .error "downcast_ref failed"

/-- Downcast to GenericStringArray with 64-bit offsets. -/
def ArrayValue.asLargeUtf8Arr : ArrayValue → Except String (List (Option String))
  | .LargeUtf8Arr xs => .ok xs
  | _ => .error "downcast_ref failed"

/-- The set-backed half of `InListExpr::evaluate`: dispatch on the probe's
runtime data type into `set_contains_with_negated`, with the native-value
to `ScalarValue` conversions of the respective `try_into` impls (modelled
from the spec for the conversion target: the impls live in
`datafusion_common`, outside this source slice; the set is keyed by value
and value type). -/
def evalInSet (set : List ScalarValue) (value : ColumnarValue) (negated : Bool) :
    EvalResult (List (Option Bool)) :=
  let array := toArrayOf value
  match value.data_type with
  | .Boolean =>
    withArr array.asBooleanArr fun a =>
      .ok (set_contains_with_negated (fun v => ScalarValue.Boolean (some v)) set a negated)
  | .Int8 =>
    withArr array.asInt8Arr fun a =>
      .ok (set_contains_with_negated (fun v => ScalarValue.Int8 (some v)) set a negated)
  | .Int16 =>
    withArr array.asInt16Arr fun a =>
      .ok (set_contains_with_negated (fun v => ScalarValue.Int16 (some v)) set a negated)
  | .Int32 =>
    withArr array.asInt32Arr fun a =>
      .ok (set_contains_with_negated (fun v => ScalarValue.Int32 (some v)) set a negated)
  | .Int64 =>
    withArr array.asInt64Arr fun a =>
      .ok (set_contains_with_negated (fun v => ScalarValue.Int64 (some v)) set a negated)
  | .UInt8 =>
    withArr array.asUInt8Arr fun a =>
      .ok (set_contains_with_negated (fun v => ScalarValue.UInt8 (some v)) set a negated)
  | .UInt16 =>
    withArr array.asUInt16Arr fun a =>
      .ok (set_contains_with_negated (fun v => ScalarValue.UInt16 (some v)) set a negated)
  | .UInt32 =>
    withArr array.asUInt32Arr fun a =>
      .ok (set_contains_with_negated (fun v => ScalarValue.UInt32 (some v)) set a negated)
  | .UInt64 =>
    withArr array.asUInt64Arr fun a =>
      .ok (set_contains_with_negated (fun v => ScalarValue.UInt64 (some v)) set a negated)
  | .Float32 =>
    withArr array.asFloat32Arr fun a =>
      .ok (set_contains_with_negated (fun v => ScalarValue.Float32 (some v)) set a negated)
  | .Float64 =>
    withArr array.asFloat64Arr fun a =>
      .ok (set_contains_with_negated (fun v => ScalarValue.Float64 (some v)) set a negated)
  | .Utf8 =>
    withArr array.asUtf8Arr fun a =>
      .ok (set_contains_with_negated (fun v => ScalarValue.Utf8 (some v)) set a negated)
  | .LargeUtf8 =>
    withArr array.asLargeUtf8Arr fun a =>
      .ok (set_contains_with_negated (fun v => ScalarValue.LargeUtf8 (some v)) set a negated)
  | dt => .notImplemented ("InSet does not support datatype " ++ dt.displayName ++ ".")

/-- The list-backed half of `InListExpr::evaluate`: dispatch on the
probe's runtime data type into the per-type list evaluators, with the
`DataType::Null` short-circuit and the catch-all error arm. -/
def evalInList (list_values : List ColumnarValue) (value : ColumnarValue)
    (negated : Bool) : EvalResult (List (Option Bool)) :=
  let array := toArrayOf value
  match value.data_type with
  | .Float32 =>
    withArr array.asFloat32Arr fun a =>
      make_contains_primitive f32Eq extractFloat32 a list_values negated
  | .Float64 =>
    withArr array.asFloat64Arr fun a =>
      make_contains_primitive f64Eq extractFloat64 a list_values negated
  | .Int16 =>
    withArr array.asInt16Arr fun a =>
      make_contains_primitive (fun a b => a == b) extractInt16 a list_values negated
  | .Int32 =>
    withArr array.asInt32Arr fun a =>
      make_contains_primitive (fun a b => a == b) extractInt32 a list_values negated
  | .Int64 =>
    withArr array.asInt64Arr fun a =>
      make_contains_primitive (fun a b => a == b) extractInt64 a list_values negated
  | .Int8 =>
    withArr array.asInt8Arr fun a =>
      make_contains_primitive (fun a b => a == b) extractInt8 a list_values negated
  | .UInt16 =>
    withArr array.asUInt16Arr fun a =>
      make_contains_primitive (fun a b => a == b) extractUInt16 a list_values negated
  | .UInt32 =>
    withArr array.asUInt32Arr fun a =>
      make_contains_primitive (fun a b => a == b) extractUInt32 a list_values negated
  | .UInt64 =>
    withArr array.asUInt64Arr fun a =>
      make_contains_primitive (fun a b => a == b) extractUInt64 a list_values negated
  | .UInt8 =>
    withArr array.asUInt8Arr fun a =>
      make_contains_primitive (fun a b => a == b) extractUInt8 a list_values negated
  | .Boolean =>
    withArr array.asBooleanArr fun a =>
      make_contains (fun a b => a == b) extractBoolean a list_values negated
  | .Utf8 =>
    withArr array.asUtf8Arr fun a =>
      InListExpr.compare_utf8 a list_values negated
  | .LargeUtf8 =>
    withArr array.asLargeUtf8Arr fun a =>
      InListExpr.compare_utf8 a list_values negated
  | .Null => .ok (List.replicate array.len none)
  | dt => .notImplemented ("InList does not support datatype " ++ dt.displayName ++ ".")

/-- InListExpr::evaluate: evaluate the probe, then either look rows up in
the materialized set or re-evaluate the candidate list and run the
list-backed evaluator for the probe's runtime type. -/
def InListExpr.evaluate (self : InListExpr) : EvalResult (List (Option Bool)) :=
  let value := self.expr.evaluate
  match self.set with
  | some inset => evalInSet inset value self.negated
  | none => evalInList (self.list.map PhysExpr.evaluate) value self.negated

/-! ### General helper lemmas -/

theorem listGetMap {α β : Type} (f : α → β) (l : List α) (i : Nat) :
    (l.map f).get? i = (l.get? i).map f := by
  simp [List.get?_eq_getElem?, List.getElem?_map]

theorem listAllExt {α : Type} (f g : α → Bool) (l : List α)
    (h : ∀ a, f a = g a) : l.all f = l.all g := by
  induction l with
  | nil => rfl
  | cons a t ih => simp [List.all_cons, h, ih]

/-! ### The reference truth table and the list-backed evaluators -/

/-- The four-way truth table of the spec, as a rowwise reference function:
null row yields null; a row found among the collected values yields
true/false by negation; a missed row yields null when the list contained a
null, else false/true by negation. -/
def specTruthTable {α : Type} (beq : α → α → Bool) (values : List α)
    (contains_null negated : Bool) : Option α → Option Bool
  | none => none
  | some v =>
    if values.any (beq v) then some (!negated)
    else if contains_null then none
    else some negated

theorem make_contains_table {α : Type} (beq : α → α → Bool)
    (extract : ScalarValue → Except String (Option α))
    (array : List (Option α)) (lvs : List ColumnarValue) (negated : Bool)
    (values : List α) (h : collectValues extract lvs = .ok values) :
    make_contains beq extract array lvs negated
      = .ok (array.map (specTruthTable beq values (listContainsNull lvs) negated)) := by
  simp only [make_contains, h]
  congr 1
  apply List.map_congr_left
  intro x _
  cases x with
  | none => rfl
  | some v =>
    simp only [Option.map_some', specTruthTable]
    cases hf : values.any (beq v) <;>
      cases hcn : listContainsNull lvs <;>
        cases negated <;> simp

theorem make_contains_primitive_table {α : Type} (beq : α → α → Bool)
    (extract : ScalarValue → Except String (Option α))
    (array : List (Option α)) (lvs : List ColumnarValue) (negated : Bool)
    (values : List α) (h : collectValues extract lvs = .ok values) :
    make_contains_primitive beq extract array lvs negated
      = .ok (array.map (specTruthTable beq values (listContainsNull lvs) negated)) := by
  simp only [make_contains_primitive, h]
  cases hcn : listContainsNull lvs <;> cases negated <;>
    · simp only [if_pos, if_neg, Bool.false_eq_true, not_false_iff,
        in_list_primitive, not_in_list_primitive, compare_op_scalar,
        EvalResult.ok.injEq, if_true, if_false]
      apply List.map_congr_left
      intro x _
      cases x with
      | none => rfl
      | some v =>
        simp only [Option.map_some', specTruthTable]
        cases hf : values.any (beq v) <;> simp

theorem compare_utf8_table (array : List (Option String))
    (lvs : List ColumnarValue) (negated : Bool) (values : List String)
    (h : collectValues extractUtf8 lvs = .ok values) :
    InListExpr.compare_utf8 array lvs negated
      = .ok (array.map
          (specTruthTable (fun v w => w == v) values (listContainsNull lvs) negated)) := by
  simp only [InListExpr.compare_utf8, h]
  cases hcn : listContainsNull lvs <;> cases negated <;>
    · simp only [if_pos, if_neg, Bool.false_eq_true, not_false_iff,
        in_list_primitive, not_in_list_primitive, compare_op_scalar,
        EvalResult.ok.injEq, if_true, if_false]
      apply List.map_congr_left
      intro x _
      cases x with
      | none => rfl
      | some v =>
        simp only [Option.map_some', specTruthTable]
        cases hf : values.any (fun w => w == v) <;> simp

/-- Claim C1: in the list-backed evaluator, for every probe element type
with its native equality, every probe array, every candidate list whose
value collection succeeds, and both values of the negation flag, each
output row of each of the three evaluator families (`make_contains`,
`make_contains_primitive`, `InListExpr.compare_utf8`) follows the four-way
truth table: null row yields null; a found row yields true (false when
negated); a missed row yields null when some candidate was a null scalar,
else false (true when negated). -/
theorem C1_list_backed_truth_table {α : Type} (beq : α → α → Bool)
    (extract : ScalarValue → Except String (Option α))
    (array : List (Option α)) (lvs : List ColumnarValue) (negated : Bool)
    (values : List α) (sarr : List (Option String)) (slvs : List ColumnarValue)
    (svalues : List String)
    (h : collectValues extract lvs = .ok values)
    (hs : collectValues extractUtf8 slvs = .ok svalues) :
    make_contains beq extract array lvs negated
      = .ok (array.map (specTruthTable beq values (listContainsNull lvs) negated))
    ∧ make_contains_primitive beq extract array lvs negated
      = .ok (array.map (specTruthTable beq values (listContainsNull lvs) negated))
    ∧ InListExpr.compare_utf8 sarr slvs negated
      = .ok (sarr.map
          (specTruthTable (fun v w => w == v) svalues (listContainsNull slvs) negated)) :=
  ⟨make_contains_table beq extract array lvs negated values h,
   make_contains_primitive_table beq extract array lvs negated values h,
   compare_utf8_table sarr slvs negated svalues hs⟩

/-- Witness for C1 at a concrete input: an Int64 probe `[0, 2, null]`
against the candidate list `(0, 1, NULL)` and a string probe
`["a", "d", null]` against `("a", "b")`, negated. -/
theorem C1_list_backed_truth_table_witness :
    make_contains (fun a b : Int => a == b) extractInt64 [some 0, some 2, none]
        [.Scalar (.Int64 (some 0)), .Scalar (.Int64 (some 1)), .Scalar (.Utf8 none)] false
      = .ok ([some 0, some 2, none].map
          (specTruthTable (fun a b : Int => a == b) [0, 1]
            (listContainsNull
              [.Scalar (.Int64 (some 0)), .Scalar (.Int64 (some 1)), .Scalar (.Utf8 none)])
            false))
    ∧ make_contains_primitive (fun a b : Int => a == b) extractInt64 [some 0, some 2, none]
        [.Scalar (.Int64 (some 0)), .Scalar (.Int64 (some 1)), .Scalar (.Utf8 none)] false
      = .ok ([some 0, some 2, none].map
          (specTruthTable (fun a b : Int => a == b) [0, 1]
            (listContainsNull
              [.Scalar (.Int64 (some 0)), .Scalar (.Int64 (some 1)), .Scalar (.Utf8 none)])
            false))
    ∧ InListExpr.compare_utf8 [some "a", some "d", none]
        [.Scalar (.Utf8 (some "a")), .Scalar (.Utf8 (some "b"))] false
      = .ok ([some "a", some "d", none].map
          (specTruthTable (fun v w : String => w == v) ["a", "b"]
            (listContainsNull [.Scalar (.Utf8 (some "a")), .Scalar (.Utf8 (some "b"))])
            false)) :=
  C1_list_backed_truth_table (fun a b : Int => a == b) extractInt64
    [some 0, some 2, none]
    [.Scalar (.Int64 (some 0)), .Scalar (.Int64 (some 1)), .Scalar (.Utf8 none)] false
    [0, 1] [some "a", some "d", none]
    [.Scalar (.Utf8 (some "a")), .Scalar (.Utf8 (some "b"))] ["a", "b"]
    (by rfl) (by rfl)

/-! ### Construction-time behavior -/

/-- Spec-side predicate: the expression is a literal constant. -/
def isLiteral : PhysExpr → Bool
  | .Literal _ => true
  | _ => false

/-- Spec-side predicate: the expression is a type cast whose sole operand
is a literal constant. -/
def isCastOfLiteral : PhysExpr → Bool
  | .Cast (.Literal _) _ _ => true
  | _ => false

theorem check_all_static_eq (l : List PhysExpr) :
    check_all_static_filter_expr l = l.all fun m => isLiteral m || isCastOfLiteral m := by
  unfold check_all_static_filter_expr
  apply listAllExt
  intro m
  cases m with
  | Literal v => rfl
  | Cast inner t r => cases inner <;> rfl
  | Opaque i r n => rfl

/-- Claim C4: the materialized set is built if and only if the candidate
list is strictly longer than 30 and every member is a literal or a
cast-of-literal; otherwise the `set` field stays empty (so evaluation
re-runs the list per batch), and the field is fixed at construction. -/
theorem C4_set_materialization (e : PhysExpr) (l : List PhysExpr) (n : Bool) :
    (InListExpr.new e l n).set =
      if 30 < l.length ∧ ∀ m ∈ l, isLiteral m = true ∨ isCastOfLiteral m = true
      then some (cast_static_filter_to_set l)
      else none := by
  unfold InListExpr.new
  rw [check_all_static_eq]
  by_cases hc : 30 < l.length ∧ ∀ m ∈ l, isLiteral m = true ∨ isCastOfLiteral m = true
  · rw [if_pos hc]
    have hb : (decide (OPTIMIZER_INSET_THRESHOLD < l.length) &&
        l.all fun m => isLiteral m || isCastOfLiteral m) = true := by
      simp only [Bool.and_eq_true, decide_eq_true_eq, List.all_eq_true,
        Bool.or_eq_true, OPTIMIZER_INSET_THRESHOLD]
      exact hc
    simp [hb]
  · rw [if_neg hc]
    have hb : (decide (OPTIMIZER_INSET_THRESHOLD < l.length) &&
        l.all fun m => isLiteral m || isCastOfLiteral m) = false := by
      rw [Bool.eq_false_iff]
      intro hcontra
      apply hc
      simpa only [Bool.and_eq_true, decide_eq_true_eq, List.all_eq_true,
        Bool.or_eq_true, OPTIMIZER_INSET_THRESHOLD] using hcontra
    simp [hb]

/-- A node whose probe is declared non-nullable but whose list holds a
null literal: probe rows `[0, 5]`, list `(0, NULL)`. -/
def nullableExhibit : InListExpr :=
  InListExpr.new (.Opaque 0 (.Array (.Int64Arr [some 0, some 5])) false)
    [.Literal (.Int64 (some 0)), .Literal (.Int64 none)] false

/-- Claim C10: the node's reported nullability is exactly the probe
expression's nullability, ignoring the candidate list; consequently a node
with a non-nullable probe but a null literal in its list reports itself
non-nullable yet produces a null output row. -/
theorem C10_nullable_is_probe_nullable :
    (∀ e : InListExpr, e.nullable = e.expr.nullable)
    ∧ nullableExhibit.nullable = false
    ∧ nullableExhibit.evaluate = .ok [some true, none] :=
  ⟨fun _ => rfl, by decide, by decide⟩

/-! ### The type-dispatch error arms -/

/-- The value types the claim counts as supported by the InList node:
boolean, the eight integer widths, the two float widths, the two string
offset widths, and the all-null type. -/
def DataType.claimSupported : DataType → Bool
  | .Date32 => false
  | _ => true

/-- Claim C6: when the probe's runtime value type is outside the supported
set, both the set-backed and the list-backed dispatch return an explicit
"not implemented" error naming the type, and no boolean output is
produced. -/
theorem C6_unsupported_type_errors (set : List ScalarValue)
    (lvs : List ColumnarValue) (value : ColumnarValue) (negated : Bool)
    (h : value.data_type.claimSupported = false) :
    evalInSet set value negated
      = .notImplemented
          ("InSet does not support datatype " ++ value.data_type.displayName ++ ".")
    ∧ evalInList lvs value negated
      = .notImplemented
          ("InList does not support datatype " ++ value.data_type.displayName ++ ".") := by
  cases hd : value.data_type <;>
    simp_all [evalInSet, evalInList, DataType.claimSupported, DataType.displayName]

/-- Witness for C6 at a concrete input: a Date32 probe array. -/
theorem C6_unsupported_type_errors_witness :
    evalInSet [] (.Array (.Date32Arr [some 1])) false
      = .notImplemented
          ("InSet does not support datatype "
            ++ (ColumnarValue.Array (.Date32Arr [some 1])).data_type.displayName ++ ".")
    ∧ evalInList [] (.Array (.Date32Arr [some 1])) false
      = .notImplemented
          ("InList does not support datatype "
            ++ (ColumnarValue.Array (.Date32Arr [some 1])).data_type.displayName ++ ".") :=
  C6_unsupported_type_errors [] [] (.Array (.Date32Arr [some 1])) false (by rfl)

/-! ### The all-null probe type and the nested-column failure -/

/-- A static candidate list of 31 literals (the Int64 values 0..29 plus a
null Int64 literal): long and static enough that `InListExpr::new`
materializes the set. -/
def staticList31 : List PhysExpr :=
  ((List.range 30).map fun n => PhysExpr.Literal (.Int64 (some (Int.ofNat n)))) ++
    [.Literal (.Int64 none)]

/-- Claim C7 counterexample: on a set-backed node (static list longer than
30), a probe of the all-null value type does not short-circuit to an
all-null array — it fails with the set path's "not implemented" error. -/
theorem C7_counterexample :
    (InListExpr.new (.Literal .Null) staticList31 false).evaluate
        = .notImplemented "InSet does not support datatype Null."
    ∧ (InListExpr.new (.Literal .Null) staticList31 false).evaluate
        ≠ .ok [none] := by
  constructor
  · decide
  · decide

/-- Claim C7 (amended): on a list-backed node (no materialized set), a
probe of the all-null value type short-circuits to an all-null boolean
array of the probe's row count, regardless of list contents and
negation. -/
theorem C7_amended_null_shortcircuit (e : InListExpr) (hset : e.set = none)
    (hdt : e.expr.evaluate.data_type = .Null) :
    e.evaluate = .ok (List.replicate (toArrayOf e.expr.evaluate).len none) := by
  simp only [InListExpr.evaluate, hset, evalInList, hdt]

/-- Witness for the amended C7 at a concrete input: a null-literal probe
on a list-backed node with a nonempty candidate list. -/
theorem C7_amended_null_shortcircuit_witness :
    ({ expr := .Literal .Null, list := [.Literal (.Int64 (some 0))],
       negated := false, set := none } : InListExpr).evaluate = .ok [none] := by
  have h := C7_amended_null_shortcircuit
    { expr := .Literal .Null, list := [.Literal (.Int64 (some 0))],
      negated := false, set := none } rfl rfl
  simpa using h

/-- A list-backed node whose single candidate evaluates to an array-valued
columnar value. -/
def nestedColumnNode : InListExpr :=
  { expr := .Opaque 0 (.Array (.Int64Arr [some 1])) true,
    list := [.Opaque 1 (.Array (.Int64Arr [some 1])) true],
    negated := false, set := none }

/-- Claim C8 counterexample: an array-valued candidate makes evaluation
abort (Rust `unimplemented!`) with the "nested columns" message — the
failure is a process abort, not a recoverable error value handed to the
caller. -/
theorem C8_counterexample :
    nestedColumnNode.evaluate = .panicked "InList does not yet support nested columns."
    ∧ nestedColumnNode.evaluate
        ≠ .notImplemented "InList does not yet support nested columns." := by
  constructor
  · decide
  · decide

theorem collectValues_array_aborts {α : Type}
    (extract : ScalarValue → Except String (Option α)) (lvs : List ColumnarValue)
    (hok : ∀ cv ∈ lvs, (∃ s, cv = .Scalar s ∧ ∃ r, extract s = .ok r) ∨ ∃ a, cv = .Array a)
    (hhas : ∃ a, ColumnarValue.Array a ∈ lvs) :
    collectValues extract lvs = .error "InList does not yet support nested columns." := by
  induction lvs with
  | nil => simp at hhas
  | cons cv rest ih =>
    cases cv with
    | Array a => rfl
    | Scalar s =>
      have hcv := hok (.Scalar s) (List.mem_cons_self _ _)
      rcases hcv with ⟨s', hs', r, hr⟩ | ⟨a, ha⟩
      · have hss : s' = s := by
          injection hs' with h1
          exact h1.symm
        subst hss
        have hrest : collectValues extract rest
            = .error "InList does not yet support nested columns." := by
          apply ih
          · intro cv hcvmem
            exact hok cv (List.mem_cons_of_mem _ hcvmem)
          · rcases hhas with ⟨a, hmem⟩
            rcases List.mem_cons.mp hmem with heq | hmem'
            · exact absurd heq.symm (by simp)
            · exact ⟨a, hmem'⟩
        cases r with
        | none => simpa [collectValues, hr] using hrest
        | some v => simp [collectValues, hr, hrest]
      · exact absurd ha (by simp)

/-- Claim C8 (amended): in each list-backed evaluator family, when some
candidate evaluates to an array-valued columnar value (and the candidates
before it are scalars the arm can read), evaluation aborts with the
explicit "nested columns" not-implemented message — an abort, not a
recoverable error — and no boolean output is produced. -/
theorem C8_amended_nested_columns_abort {α : Type} (beq : α → α → Bool)
    (extract : ScalarValue → Except String (Option α))
    (array : List (Option α)) (lvs : List ColumnarValue) (negated : Bool)
    (sarr : List (Option String))
    (hok : ∀ cv ∈ lvs, (∃ s, cv = .Scalar s ∧ ∃ r, extract s = .ok r) ∨ ∃ a, cv = .Array a)
    (hhas : ∃ a, ColumnarValue.Array a ∈ lvs)
    (hoks : ∀ cv ∈ lvs, (∃ s, cv = .Scalar s ∧ ∃ r, extractUtf8 s = .ok r) ∨ ∃ a, cv = .Array a) :
    make_contains beq extract array lvs negated
        = .panicked "InList does not yet support nested columns."
    ∧ make_contains_primitive beq extract array lvs negated
        = .panicked "InList does not yet support nested columns."
    ∧ InListExpr.compare_utf8 sarr lvs negated
        = .panicked "InList does not yet support nested columns." := by
  have h1 := collectValues_array_aborts extract lvs hok hhas
  have h2 := collectValues_array_aborts extractUtf8 lvs hoks hhas
  refine ⟨?_, ?_, ?_⟩
  · simp [make_contains, h1]
  · simp [make_contains_primitive, h1]
  · simp [InListExpr.compare_utf8, h2]

/-- Witness for the amended C8 at a concrete input: candidate list with a
null literal followed by an array-valued member, against an Int64 probe. -/
theorem C8_amended_nested_columns_abort_witness :
    make_contains (fun a b : Int => a == b) extractInt64 [some 1]
        [.Scalar (.Utf8 none), .Array (.Int64Arr [some 1])] false
      = .panicked "InList does not yet support nested columns."
    ∧ make_contains_primitive (fun a b : Int => a == b) extractInt64 [some 1]
        [.Scalar (.Utf8 none), .Array (.Int64Arr [some 1])] false
      = .panicked "InList does not yet support nested columns."
    ∧ InListExpr.compare_utf8 [some "a"]
        [.Scalar (.Utf8 none), .Array (.Int64Arr [some 1])] false
      = .panicked "InList does not yet support nested columns." := by
  have h := C8_amended_nested_columns_abort (fun a b : Int => a == b) extractInt64
    [some 1] [.Scalar (.Utf8 none), .Array (.Int64Arr [some 1])] false [some "a"]
    (by
      intro cv hcv
      cases hcv with
      | head => exact Or.inl ⟨.Utf8 none, rfl, none, rfl⟩
      | tail _ h =>
        cases h with
        | head => exact Or.inr ⟨.Int64Arr [some 1], rfl⟩
        | tail _ h2 => cases h2)
    ⟨.Int64Arr [some 1], List.mem_cons_of_mem _ (List.mem_cons_self _ _)⟩
    (by
      intro cv hcv
      cases hcv with
      | head => exact Or.inl ⟨.Utf8 none, rfl, none, rfl⟩
      | tail _ h =>
        cases h with
        | head => exact Or.inr ⟨.Int64Arr [some 1], rfl⟩
        | tail _ h2 => cases h2)
  exact h

/-! ### Null candidates of foreign type -/

/-- A list-backed node with an Int64 probe whose only candidate is a
null Boolean literal (a null scalar of a type other than the probe's and
other than Utf8). -/
def foreignNullNode : InListExpr :=
  { expr := .Opaque 0 (.Array (.Int64Arr [some 1])) true,
    list := [.Literal (.Boolean none)], negated := false, set := none }

/-- Claim C9 counterexample: a candidate evaluating to a null scalar of a
foreign logical type (a Boolean null in an Int64 list) does cause a
runtime failure — evaluation aborts in the value-collection arm instead of
treating the null as contributing no value. -/
theorem C9_counterexample :
    foreignNullNode.evaluate = .panicked "Unexpected type Boolean(NULL) for InList"
    ∧ foreignNullNode.evaluate ≠ .ok [none] := by
  constructor
  · decide
  · decide

/-- Claim C9 (amended): a candidate whose scalar the current dispatch
arm's extractor skips — a null of the probe's own type, or a Utf8-typed
null (for the string arms also a LargeUtf8-typed null) — contributes no
value to the collected candidates and causes no failure, while a scalar
the extractor rejects (a null of any other type just like a non-null
mismatched literal) aborts evaluation at runtime in every list-backed
family. -/
theorem C9_amended_null_candidates {α : Type} (beq : α → α → Bool)
    (extract : ScalarValue → Except String (Option α))
    (array : List (Option α)) (lvs : List ColumnarValue) (negated : Bool)
    (m : String) (sarr : List (Option String)) (s1 s2 : ScalarValue) :
    (extract s1 = .ok none →
      collectValues extract (.Scalar s1 :: lvs) = collectValues extract lvs)
    ∧ (extract s2 = .error m →
        make_contains beq extract array (.Scalar s2 :: lvs) negated = .panicked m
        ∧ make_contains_primitive beq extract array (.Scalar s2 :: lvs) negated
            = .panicked m)
    ∧ (extractUtf8 s2 = .error m →
        InListExpr.compare_utf8 sarr (.Scalar s2 :: lvs) negated = .panicked m)
    ∧ extractBoolean (.Boolean none) = .ok none ∧ extractBoolean (.Utf8 none) = .ok none
    ∧ extractInt8 (.Int8 none) = .ok none ∧ extractInt8 (.Utf8 none) = .ok none
    ∧ extractInt16 (.Int16 none) = .ok none ∧ extractInt16 (.Utf8 none) = .ok none
    ∧ extractInt32 (.Int32 none) = .ok none ∧ extractInt32 (.Utf8 none) = .ok none
    ∧ extractInt64 (.Int64 none) = .ok none ∧ extractInt64 (.Utf8 none) = .ok none
    ∧ extractUInt8 (.UInt8 none) = .ok none ∧ extractUInt8 (.Utf8 none) = .ok none
    ∧ extractUInt16 (.UInt16 none) = .ok none ∧ extractUInt16 (.Utf8 none) = .ok none
    ∧ extractUInt32 (.UInt32 none) = .ok none ∧ extractUInt32 (.Utf8 none) = .ok none
    ∧ extractUInt64 (.UInt64 none) = .ok none ∧ extractUInt64 (.Utf8 none) = .ok none
    ∧ extractFloat32 (.Float32 none) = .ok none ∧ extractFloat32 (.Utf8 none) = .ok none
    ∧ extractFloat64 (.Float64 none) = .ok none ∧ extractFloat64 (.Utf8 none) = .ok none
    ∧ extractUtf8 (.Utf8 none) = .ok none ∧ extractUtf8 (.LargeUtf8 none) = .ok none := by
  refine ⟨?_, ?_, ?_, rfl, rfl, rfl, rfl, rfl, rfl, rfl, rfl, rfl, rfl, rfl, rfl,
    rfl, rfl, rfl, rfl, rfl, rfl, rfl, rfl, rfl, rfl, rfl, rfl⟩
  · intro h
    simp [collectValues, h]
  · intro h
    constructor
    · simp [make_contains, collectValues, h]
    · simp [make_contains_primitive, collectValues, h]
  · intro h
    simp [InListExpr.compare_utf8, collectValues, h]

/-- Witness for the amended C9 at concrete inputs: an Int64-typed null and
a Utf8-typed null are skipped, and a Boolean-typed null aborts, in the
Int64 arm. -/
theorem C9_amended_null_candidates_witness :
    collectValues extractInt64
        [.Scalar (.Int64 none), .Scalar (.Int64 (some 7))]
      = collectValues extractInt64 [.Scalar (.Int64 (some 7))]
    ∧ make_contains_primitive (fun a b : Int => a == b) extractInt64 [some 1]
        [.Scalar (.Boolean none), .Scalar (.Int64 (some 7))] false
      = .panicked "Unexpected type Boolean(NULL) for InList" :=
  ⟨(C9_amended_null_candidates (fun a b : Int => a == b) extractInt64 [some 1]
      [.Scalar (.Int64 (some 7))] false "Unexpected type Boolean(NULL) for InList"
      [] (.Int64 none) (.Boolean none)).1 rfl,
   ((C9_amended_null_candidates (fun a b : Int => a == b) extractInt64 [some 1]
      [.Scalar (.Int64 (some 7))] false "Unexpected type Boolean(NULL) for InList"
      [] (.Int64 none) (.Boolean none)).2.1 rfl).2⟩

/-! ### Null probe rows yield null output rows (both paths) -/

theorem toArray_dataType (value : ColumnarValue) :
    (toArrayOf value).arrayDataType = value.data_type := by
  cases value with
  | Array a => rfl
  | Scalar s => cases s <;> rfl

theorem evalInSet_toArray (set : List ScalarValue) (value : ColumnarValue)
    (negated : Bool) :
    evalInSet set value negated = evalInSet set (.Array (toArrayOf value)) negated := by
  cases value with
  | Array a => rfl
  | Scalar s => cases s <;> rfl

theorem evalInList_toArray (lvs : List ColumnarValue) (value : ColumnarValue)
    (negated : Bool) :
    evalInList lvs value negated = evalInList lvs (.Array (toArrayOf value)) negated := by
  cases value with
  | Array a => rfl
  | Scalar s => cases s <;> rfl

theorem evaluate_set_eq (e : InListExpr) (s : List ScalarValue)
    (h : e.set = some s) :
    e.evaluate = evalInSet s e.expr.evaluate e.negated := by
  unfold InListExpr.evaluate
  rw [h]

theorem evaluate_list_eq (e : InListExpr) (h : e.set = none) :
    e.evaluate = evalInList (e.list.map PhysExpr.evaluate) e.expr.evaluate e.negated := by
  unfold InListExpr.evaluate
  rw [h]

theorem set_contains_nullrow {α : Type} (toScalar : α → ScalarValue)
    (set : List ScalarValue) (xs : List (Option α)) (negated : Bool) (i : Nat)
    (h : xs.get? i = some none) :
    (set_contains_with_negated toScalar set xs negated).get? i = some none := by
  cases negated with
  | false =>
    show (xs.map fun x => x.map fun v => setContains set (toScalar v)).get? i = some none
    rw [listGetMap, h]
    rfl
  | true =>
    show (xs.map fun x => x.map fun v => !setContains set (toScalar v)).get? i = some none
    rw [listGetMap, h]
    rfl

theorem make_contains_ok_nullrow {α : Type} (beq : α → α → Bool)
    (extract : ScalarValue → Except String (Option α)) (xs : List (Option α))
    (lvs : List ColumnarValue) (negated : Bool) (out : List (Option Bool)) (i : Nat)
    (hok : make_contains beq extract xs lvs negated = .ok out)
    (h : xs.get? i = some none) : out.get? i = some none := by
  cases hcv : collectValues extract lvs with
  | error m => simp [make_contains, hcv] at hok
  | ok values =>
    rw [make_contains_table beq extract xs lvs negated values hcv] at hok
    injection hok with h1
    rw [← h1, listGetMap, h]
    rfl

theorem make_contains_primitive_ok_nullrow {α : Type} (beq : α → α → Bool)
    (extract : ScalarValue → Except String (Option α)) (xs : List (Option α))
    (lvs : List ColumnarValue) (negated : Bool) (out : List (Option Bool)) (i : Nat)
    (hok : make_contains_primitive beq extract xs lvs negated = .ok out)
    (h : xs.get? i = some none) : out.get? i = some none := by
  cases hcv : collectValues extract lvs with
  | error m => simp [make_contains_primitive, hcv] at hok
  | ok values =>
    rw [make_contains_primitive_table beq extract xs lvs negated values hcv] at hok
    injection hok with h1
    rw [← h1, listGetMap, h]
    rfl

theorem compare_utf8_ok_nullrow (xs : List (Option String))
    (lvs : List ColumnarValue) (negated : Bool) (out : List (Option Bool)) (i : Nat)
    (hok : InListExpr.compare_utf8 xs lvs negated = .ok out)
    (h : xs.get? i = some none) : out.get? i = some none := by
  cases hcv : collectValues extractUtf8 lvs with
  | error m => simp [InListExpr.compare_utf8, hcv] at hok
  | ok values =>
    rw [compare_utf8_table xs lvs negated values hcv] at hok
    injection hok with h1
    rw [← h1, listGetMap, h]
    rfl

/-- Claim C2: in both the set-backed and the list-backed path, whenever
evaluation produces an output array, every row where the probe value is
null produces a null output row, regardless of list contents and
negation. -/
theorem C2_null_probe_null_output (e : InListExpr) (out : List (Option Bool))
    (i : Nat) (hok : e.evaluate = .ok out)
    (hnull : (toArrayOf e.expr.evaluate).rowIsNull i = true) :
    out.get? i = some none := by
  cases hset : e.set with
  | some s =>
    rw [evaluate_set_eq e s hset] at hok
    rw [evalInSet_toArray] at hok
    generalize harr : toArrayOf e.expr.evaluate = a at hok hnull
    cases a <;>
      simp only [evalInSet, ColumnarValue.data_type, ArrayValue.arrayDataType,
        toArrayOf, withArr, ArrayValue.asBooleanArr, ArrayValue.asInt8Arr,
        ArrayValue.asInt16Arr, ArrayValue.asInt32Arr, ArrayValue.asInt64Arr,
        ArrayValue.asUInt8Arr, ArrayValue.asUInt16Arr, ArrayValue.asUInt32Arr,
        ArrayValue.asUInt64Arr, ArrayValue.asFloat32Arr, ArrayValue.asFloat64Arr,
        ArrayValue.asUtf8Arr, ArrayValue.asLargeUtf8Arr] at hok <;>
      simp only [ArrayValue.rowIsNull, beq_iff_eq, decide_eq_true_eq] at hnull <;>
      first
        | exact EvalResult.noConfusion hok
        | · injection hok with h1
            rw [← h1]
            exact set_contains_nullrow _ _ _ _ _ hnull
  | none =>
    rw [evaluate_list_eq e hset] at hok
    rw [evalInList_toArray] at hok
    generalize harr : toArrayOf e.expr.evaluate = a at hok hnull
    cases a <;>
      simp only [evalInList, ColumnarValue.data_type, ArrayValue.arrayDataType,
        toArrayOf, withArr, ArrayValue.asBooleanArr, ArrayValue.asInt8Arr,
        ArrayValue.asInt16Arr, ArrayValue.asInt32Arr, ArrayValue.asInt64Arr,
        ArrayValue.asUInt8Arr, ArrayValue.asUInt16Arr, ArrayValue.asUInt32Arr,
        ArrayValue.asUInt64Arr, ArrayValue.asFloat32Arr, ArrayValue.asFloat64Arr,
        ArrayValue.asUtf8Arr, ArrayValue.asLargeUtf8Arr, ArrayValue.len] at hok <;>
      simp only [ArrayValue.rowIsNull, beq_iff_eq, decide_eq_true_eq] at hnull <;>
      first
        | exact EvalResult.noConfusion hok
        | exact make_contains_primitive_ok_nullrow _ _ _ _ _ _ _ hok hnull
        | exact make_contains_ok_nullrow _ _ _ _ _ _ _ hok hnull
        | exact compare_utf8_ok_nullrow _ _ _ _ _ hok hnull
        | · injection hok with h1
            rw [← h1]
            simp [List.get?_eq_getElem?, List.getElem?_replicate, hnull]

/-- Witness for C2 at a concrete input: a null row of an Int64 probe on a
list-backed node, and membership of the null row in the output. -/
theorem C2_null_probe_null_output_witness :
    ([some true, none] : List (Option Bool)).get? 1 = some none :=
  C2_null_probe_null_output
    { expr := .Opaque 0 (.Array (.Int64Arr [some 0, none])) true,
      list := [.Literal (.Int64 (some 0))], negated := false, set := none }
    [some true, none] 1 (by decide) (by decide)

/-! ### Set-backed versus list-backed evaluation -/

theorem listAnyExt {α : Type} (f g : α → Bool) (l : List α)
    (h : ∀ a, f a = g a) : l.any f = l.any g := by
  induction l with
  | nil => rfl
  | cons a t ih => simp [List.any_cons, h, ih]

theorem listAnyMapExt {α β : Type} (f : α → β) (p : β → Bool) (g : α → Bool)
    (l : List α) (h : ∀ a, p (f a) = g a) : (l.map f).any p = l.any g := by
  induction l with
  | nil => rfl
  | cons a t ih => simp [List.any_cons, h, ih]

theorem collectValues_map_toScalar {α : Type}
    (extract : ScalarValue → Except String (Option α)) (toScalar : α → ScalarValue)
    (hext : ∀ v, extract (toScalar v) = .ok (some v)) (vals : List α) :
    collectValues extract (vals.map fun v => ColumnarValue.Scalar (toScalar v))
      = .ok vals := by
  induction vals with
  | nil => rfl
  | cons v t ih => simp [collectValues, hext, ih]

theorem listContainsNull_map_toScalar {α : Type} (toScalar : α → ScalarValue)
    (hnn : ∀ v, (toScalar v).is_null = false) (vals : List α) :
    listContainsNull (vals.map fun v => ColumnarValue.Scalar (toScalar v)) = false := by
  induction vals with
  | nil => rfl
  | cons v t ih =>
    unfold listContainsNull at ih ⊢
    simp only [List.map_cons, List.any_cons, ih, Bool.or_false]
    exact hnn v

theorem cast_static_map_literal {α : Type} (toScalar : α → ScalarValue)
    (vals : List α) :
    cast_static_filter_to_set (vals.map fun v => PhysExpr.Literal (toScalar v))
      = vals.map toScalar := by
  induction vals with
  | nil => rfl
  | cons v t ih =>
    unfold cast_static_filter_to_set at ih ⊢
    simp only [List.map_cons, List.filterMap_cons, staticExprValue, ih]

theorem check_all_static_map_literal {α : Type} (toScalar : α → ScalarValue)
    (vals : List α) :
    check_all_static_filter_expr (vals.map fun v => PhysExpr.Literal (toScalar v))
      = true := by
  induction vals with
  | nil => rfl
  | cons v t ih =>
    unfold check_all_static_filter_expr at ih ⊢
    simp only [List.map_cons, List.all_cons, ih, Bool.and_true]

theorem new_literal_list_set {α : Type} (toScalar : α → ScalarValue)
    (probe : PhysExpr) (vals : List α) (negated : Bool)
    (hlen : OPTIMIZER_INSET_THRESHOLD < vals.length) :
    InListExpr.new probe (vals.map fun v => PhysExpr.Literal (toScalar v)) negated
      = { expr := probe, list := vals.map fun v => PhysExpr.Literal (toScalar v),
          negated := negated, set := some (vals.map toScalar) } := by
  unfold InListExpr.new
  rw [if_pos]
  · rw [cast_static_map_literal]
  · simp [check_all_static_map_literal, List.length_map, hlen]

theorem set_contains_as_table {α : Type} (beq : α → α → Bool)
    (toScalar : α → ScalarValue)
    (heq : ∀ v w, scalarEq (toScalar v) (toScalar w) = beq v w)
    (vals : List α) (xs : List (Option α)) (negated : Bool) :
    set_contains_with_negated toScalar (vals.map toScalar) xs negated
      = xs.map (specTruthTable beq vals false negated) := by
  have hany : ∀ v, setContains (vals.map toScalar) (toScalar v) = vals.any (beq v) := by
    intro v
    unfold setContains
    exact listAnyMapExt toScalar _ _ vals fun w => heq v w
  cases negated with
  | false =>
    show (xs.map fun x => x.map fun v => setContains (vals.map toScalar) (toScalar v)) = _
    apply List.map_congr_left
    intro x _
    cases x with
    | none => rfl
    | some v =>
      simp only [Option.map_some', hany, specTruthTable]
      cases hb : vals.any (beq v) <;> simp
  | true =>
    show (xs.map fun x => x.map fun v => !setContains (vals.map toScalar) (toScalar v)) = _
    apply List.map_congr_left
    intro x _
    cases x with
    | none => rfl
    | some v =>
      simp only [Option.map_some', hany, specTruthTable]
      cases hb : vals.any (beq v) <;> simp

/-- Claim C3 counterexample: a static list of 31 literals containing a
null literal.  On the probe row 100 (not in the list), the set-backed node
built by `InListExpr::new` answers false, while the list-backed evaluator
on the same probe, list and flag answers null. -/
theorem C3_counterexample :
    (InListExpr.new (.Opaque 0 (.Array (.Int64Arr [some 100])) true)
        staticList31 false).evaluate = .ok [some false]
    ∧ ({ expr := .Opaque 0 (.Array (.Int64Arr [some 100])) true,
         list := staticList31, negated := false, set := none } : InListExpr).evaluate
        = .ok [none] := by
  constructor
  · decide
  · decide

/-- Claim C3 (amended): for a fixed probe input, candidate list and
negation flag, the set-backed and the list-backed evaluator produce
identical output arrays provided every static list member is a non-null
literal of the probe's value type; when the static list contains a null
literal, the two paths differ on non-matching rows (list-backed yields
null, set-backed yields false for IN / true for NOT IN).  The arm
hypotheses (`harmSet`, `harmList`) state that the probe's runtime type
dispatches both paths into the given element type's evaluators; they hold
by `rfl` for each of the thirteen typed dispatch arms. -/
theorem C3_amended_threshold_equivalence {α : Type} (beq : α → α → Bool)
    (extract : ScalarValue → Except String (Option α)) (toScalar : α → ScalarValue)
    (probe : PhysExpr) (vals : List α) (xs : List (Option α)) (negated : Bool)
    (hlen : OPTIMIZER_INSET_THRESHOLD < vals.length)
    (hext : ∀ v, extract (toScalar v) = .ok (some v))
    (hnn : ∀ v, (toScalar v).is_null = false)
    (heq : ∀ v w, scalarEq (toScalar v) (toScalar w) = beq v w)
    (harmSet : ∀ s n, evalInSet s probe.evaluate n
        = .ok (set_contains_with_negated toScalar s xs n))
    (harmList : ∀ lv n, evalInList lv probe.evaluate n
        = make_contains_primitive beq extract xs lv n) :
    (InListExpr.new probe (vals.map fun v => PhysExpr.Literal (toScalar v))
        negated).evaluate
      = ({ expr := probe, list := vals.map fun v => PhysExpr.Literal (toScalar v),
           negated := negated, set := none } : InListExpr).evaluate := by
  rw [new_literal_list_set toScalar probe vals negated hlen]
  rw [evaluate_set_eq _ _ rfl]
  rw [evaluate_list_eq _ rfl]
  rw [harmSet, harmList]
  have hlv : (vals.map fun v => PhysExpr.Literal (toScalar v)).map PhysExpr.evaluate
      = vals.map fun v => ColumnarValue.Scalar (toScalar v) := by
    rw [List.map_map]
    rfl
  rw [hlv]
  rw [make_contains_primitive_table beq extract xs _ negated vals
    (collectValues_map_toScalar extract toScalar hext vals)]
  rw [listContainsNull_map_toScalar toScalar hnn vals]
  rw [set_contains_as_table beq toScalar heq vals xs negated]

/-- Witness for the amended C3 at a concrete input: 31 distinct non-null
Int64 literals, probe `[0, 99, null]`, NOT IN. -/
theorem C3_amended_threshold_equivalence_witness :
    (InListExpr.new (.Opaque 0 (.Array (.Int64Arr [some 0, some 99, none])) true)
        (((List.range 31).map fun n => Int.ofNat n).map
          fun v => PhysExpr.Literal (.Int64 (some v))) true).evaluate
      = ({ expr := .Opaque 0 (.Array (.Int64Arr [some 0, some 99, none])) true,
           list := ((List.range 31).map fun n => Int.ofNat n).map
             fun v => PhysExpr.Literal (.Int64 (some v)),
           negated := true, set := none } : InListExpr).evaluate :=
  C3_amended_threshold_equivalence (fun a b : Int => a == b) extractInt64
    (fun v => ScalarValue.Int64 (some v))
    (.Opaque 0 (.Array (.Int64Arr [some 0, some 99, none])) true)
    ((List.range 31).map fun n => Int.ofNat n) [some 0, some 99, none] true
    (by decide) (fun v => rfl) (fun v => rfl) (fun v w => rfl)
    (fun s n => rfl) (fun lv n => rfl)

/-- The 64-bit pattern of a quiet NaN (exponent all ones, non-zero
mantissa): a value native float equality does not relate to itself. -/
def f64NaNBits : Nat := 0x7ff8000000000000

/-- 31 distinct non-null Float64 bit patterns: a NaN plus the patterns
0..29 (positive zero and 29 distinct denormals). -/
def nanRoundValues : List Nat := f64NaNBits :: List.range 30

/-- A static candidate list of the 31 distinct non-null Float64 literals
of `nanRoundValues`: long and static enough that `InListExpr::new`
materializes the set. -/
def nanRoundList : List PhysExpr :=
  nanRoundValues.map fun v => PhysExpr.Literal (.Float64 (some v))

/-- A probe evaluating to exactly the 31 values of `nanRoundValues`. -/
def nanRoundProbe : PhysExpr :=
  .Opaque 0 (.Array (.Float64Arr (nanRoundValues.map some))) true

/-- Claim C5 counterexample: a static list of 31 distinct non-null Float64
literals containing a NaN (so the set is materialized), probed with
exactly those 31 values.  The NaN row yields false for IN and true for
NOT IN — not all-true / all-false as the claim states — because native
float equality never relates NaN to itself, so the set lookup misses. -/
theorem C5_counterexample :
    (InListExpr.new nanRoundProbe nanRoundList false).evaluate
      = .ok (some false :: List.replicate 30 (some true))
    ∧ (InListExpr.new nanRoundProbe nanRoundList true).evaluate
      = .ok (some true :: List.replicate 30 (some false))
    ∧ (InListExpr.new nanRoundProbe nanRoundList false).evaluate
      ≠ .ok (List.replicate 31 (some true)) := by
  refine ⟨?_, ?_, ?_⟩
  · decide
  · decide
  · decide

/-- Claim C5 (amended): with a static list of more than 30 distinct
non-null literals (so the set is materialized) whose values the scalar
equality relates to themselves — every non-float value, and every float
value other than NaN — probing with exactly those values yields all-true
output for IN and all-false output for NOT IN; a NaN float literal breaks
the round-trip at its own row.  The arm hypothesis `harm` states that the
probe's runtime type dispatches the set path into the given element
type's evaluator; `hrefl` is the reflexivity condition the counterexample
forces. -/
theorem C5_roundtrip {α : Type} (toScalar : α → ScalarValue) (probe : PhysExpr)
    (vals : List α) (negated : Bool)
    (hlen : OPTIMIZER_INSET_THRESHOLD < vals.length)
    (hnodup : vals.Nodup)
    (hrefl : ∀ v ∈ vals, scalarEq (toScalar v) (toScalar v) = true)
    (harm : ∀ s n, evalInSet s probe.evaluate n
        = .ok (set_contains_with_negated toScalar s (vals.map some) n)) :
    (InListExpr.new probe (vals.map fun v => PhysExpr.Literal (toScalar v))
        negated).evaluate
      = .ok (vals.map fun _ => some (!negated)) := by
  rw [new_literal_list_set toScalar probe vals negated hlen]
  rw [evaluate_set_eq _ _ rfl]
  rw [harm]
  congr 1
  have hmem : ∀ v ∈ vals, setContains (vals.map toScalar) (toScalar v) = true := by
    intro v hv
    unfold setContains
    rw [listAnyMapExt toScalar _ (fun w => scalarEq (toScalar v) (toScalar w)) vals
      fun w => rfl]
    simp only [List.any_eq_true]
    exact ⟨v, hv, hrefl v hv⟩
  cases negated with
  | false =>
    show ((vals.map some).map
        fun x => x.map fun v => setContains (vals.map toScalar) (toScalar v)) = _
    rw [List.map_map]
    apply List.map_congr_left
    intro v hv
    simp only [Function.comp_apply, Option.map_some', hmem v hv]
    try rfl
  | true =>
    show ((vals.map some).map
        fun x => x.map fun v => !setContains (vals.map toScalar) (toScalar v)) = _
    rw [List.map_map]
    apply List.map_congr_left
    intro v hv
    simp only [Function.comp_apply, Option.map_some', hmem v hv]
    try rfl

/-- Witness for C5 at a concrete input: the 31 distinct Int64 values
0..30, probed in both directions. -/
theorem C5_roundtrip_witness :
    (InListExpr.new (.Opaque 0 (.Array (.Int64Arr (((List.range 31).map
          fun n => Int.ofNat n).map some))) true)
        (((List.range 31).map fun n => Int.ofNat n).map
          fun v => PhysExpr.Literal (.Int64 (some v))) false).evaluate
      = .ok (((List.range 31).map fun n => Int.ofNat n).map fun _ => some true)
    ∧ (InListExpr.new (.Opaque 0 (.Array (.Int64Arr (((List.range 31).map
          fun n => Int.ofNat n).map some))) true)
        (((List.range 31).map fun n => Int.ofNat n).map
          fun v => PhysExpr.Literal (.Int64 (some v))) true).evaluate
      = .ok (((List.range 31).map fun n => Int.ofNat n).map fun _ => some false) :=
  ⟨C5_roundtrip (fun v => ScalarValue.Int64 (some v))
      (.Opaque 0 (.Array (.Int64Arr (((List.range 31).map
        fun n => Int.ofNat n).map some))) true)
      ((List.range 31).map fun n => Int.ofNat n) false
      (by decide) (by decide) (fun v _ => by simp [scalarEq]) (fun s n => rfl),
   C5_roundtrip (fun v => ScalarValue.Int64 (some v))
      (.Opaque 0 (.Array (.Int64Arr (((List.range 31).map
        fun n => Int.ofNat n).map some))) true)
      ((List.range 31).map fun n => Int.ofNat n) true
      (by decide) (by decide) (fun v _ => by simp [scalarEq]) (fun s n => rfl)⟩

end InListSpec
